import Mathlib

/-!
Verification of the type-inference and columnar-encoding engine of
`pymapd/_pandas_loaders.py`: the Type Resolver (`get_mapd_dtype`,
`get_mapd_type_from_known`, `get_mapd_type_from_object`), the time-like
normalization (`thrift_cast`), the Columnar Encoder (`build_input_columnar`)
and the Schema Describer (`build_row_desc`), embedded shallowly in Lean.

Python values are modelled by the inductive `PyVal`; pandas dtypes by
`Dtype` (a kind plus an item size in bytes); a pandas `Series` by a dtype
together with a list of values, where the single missing-value marker
`vNone` stands for `None`/`NaN`/`NaT`; Python exceptions by the `PyError`
inductive carried in `Except`.

The helper module `_utils` (the `date_to_seconds`, `time_to_seconds`,
`datetime_to_seconds` conversions and the `mapd_to_na`/`mapd_to_slot`
lookup tables) is not part of the sources under verification; those
definitions are modelled from the specification and marked as such.
-/

namespace Pymapd

instance exceptDecEq {ε α : Type} [DecidableEq ε] [DecidableEq α] :
    DecidableEq (Except ε α) := fun x y =>
  match x, y with
  | .ok a, .ok b =>
    if h : a = b then .isTrue (by rw [h]) else .isFalse (by simp [h])
  | .error a, .error b =>
    if h : a = b then .isTrue (by rw [h]) else .isFalse (by simp [h])
  | .ok _, .error _ => .isFalse (by simp)
  | .error _, .ok _ => .isFalse (by simp)

/-- A Python runtime value as seen by the loaders.  `vNone` is the
missing-value marker (None/NaN/NaT).  `vDatetime` is a
`datetime.datetime` instance, which in Python is a subclass of
`datetime.date` but not of `datetime.time`; the payloads are seconds
since the epoch (`vDatetime`), days since the epoch (`vDate`) and
seconds since midnight (`vTime`). -/
inductive PyVal where
  | vNone
  | vStr (s : String)
  | vDate (days : Int)
  | vDatetime (secs : Int)
  | vTime (secs : Int)
  | vInt (n : Int)
  | vFloat (q : Int)
  | vNaN
  | vOther
  deriving DecidableEq

/-- The kind of a pandas/numpy dtype, as classified by the
`pandas.api.types` predicates used in the source: `is_bool_dtype`,
`is_integer_dtype`, `is_float_dtype`, `is_datetime64_any_dtype`,
`is_object_dtype`.  `kOther` covers every remaining dtype. -/
inductive DtypeKind where
  | kBool
  | kInt
  | kFloat
  | kDatetime64
  | kObject
  | kOther
  deriving DecidableEq

/-- A pandas dtype: its kind and its `itemsize` in bytes. -/
structure Dtype where
  kind : DtypeKind
  itemsize : Nat
  deriving DecidableEq

/-- A pandas Series: a dtype and the column's values. -/
structure Series where
  dtype : Dtype
  values : List PyVal
  deriving DecidableEq

/-- `isinstance(v, six.string_types)`. -/
def isStrInst : PyVal → Bool
  | .vStr _ => true
  | _ => false

/-- `isinstance(v, datetime.date)`; true also for `datetime.datetime`,
a subclass of `datetime.date`. -/
def isDateInst : PyVal → Bool
  | .vDate _ => true
  | .vDatetime _ => true
  | _ => false

/-- `isinstance(v, datetime.time)`; `datetime.datetime` is not a
subclass of `datetime.time`. -/
def isTimeInst : PyVal → Bool
  | .vTime _ => true
  | _ => false

/-- `isinstance(v, int)`. -/
def isIntInst : PyVal → Bool
  | .vInt _ => true
  | _ => false

/-- Whether a value is the missing-value marker. -/
def isMissing : PyVal → Bool
  | .vNone => true
  | _ => false

/-- The target wire types (`TDatumType` names used in the source as
strings).  `VARCHAR` never comes out of the resolver but appears in the
encoder's no-int64-cast set, so it is kept in the enumeration. -/
inductive MapdType where
  | BOOL
  | TINYINT
  | SMALLINT
  | INT
  | BIGINT
  | FLOAT
  | DOUBLE
  | STR
  | VARCHAR
  | DATE
  | TIME
  | TIMESTAMP
  deriving DecidableEq

/-- Python exceptions raised by the loaders, by class and message. -/
inductive PyError where
  | typeError (msg : String)
  | indexError (msg : String)
  | importError (msg : String)
  deriving DecidableEq

/-- The class of an exception, without its message. -/
inductive ErrKind where
  | typeErrorK
  | indexErrorK
  | importErrorK
  deriving DecidableEq

/-- Map an exception to its class. -/
def PyError.kind : PyError → ErrKind
  | .typeError _ => .typeErrorK
  | .indexError _ => .indexErrorK
  | .importError _ => .importErrorK

/-- `get_mapd_type_from_known(dtype)`: direct mapping for dtypes the
pandas type system resolves unambiguously. -/
def get_mapd_type_from_known (dtype : Dtype) : Except PyError MapdType :=
  match dtype.kind with
  | .kBool => .ok .BOOL
  | .kInt =>
    if dtype.itemsize ≤ 1 then .ok .TINYINT
    else if dtype.itemsize = 2 then .ok .SMALLINT
    else if dtype.itemsize = 4 then .ok .INT
    else .ok .BIGINT
  | .kFloat =>
    if dtype.itemsize ≤ 4 then .ok .FLOAT
    else .ok .DOUBLE
  | .kDatetime64 => .ok .TIMESTAMP
  | _ => .error (.typeError "Unhandled type")

/-- `data.dropna()`: drop the missing values of a Series. -/
def dropna (s : Series) : Series :=
  { s with values := s.values.filter (fun v => !isMissing v) }

/-- `get_mapd_type_from_object(data)`: sample the first non-missing value
(`data.dropna().iloc[0]`) and dispatch on its runtime class; an
all-missing column raises IndexError. -/
def get_mapd_type_from_object (data : Series) : Except PyError MapdType :=
  match (dropna data).values.head? with
  | none => .error (.indexError "Not any valid values to infer the type")
  | some val =>
    if isStrInst val then .ok .STR
    else if isDateInst val then .ok .DATE
    else if isTimeInst val then .ok .TIME
    else if isIntInst val then .ok .INT
    else .error (.typeError "Unhandled type")

/-- `get_mapd_dtype(data)`: route object-dtype columns to the sampling
resolver, every other column to the dtype-based resolver. -/
def get_mapd_dtype (data : Series) : Except PyError MapdType :=
  if data.dtype.kind = .kObject then get_mapd_type_from_object data
  else get_mapd_type_from_known data.dtype

/-- Modelled from the spec: `_utils.date_to_seconds`, applied elementwise
on a date column — a date becomes the integer count of seconds since the
epoch at midnight of that date; a missing marker stays missing; other
values pass through. -/
def date_to_seconds_val : PyVal → PyVal
  | .vNone => .vNone
  | .vDate d => .vInt (d * 86400)
  | .vDatetime s => .vInt s
  | v => v

/-- Modelled from the spec: `_utils.time_to_seconds`, applied elementwise
on a time column — a time becomes the integer count of seconds since
midnight; a missing marker stays missing; other values pass through. -/
def time_to_seconds_val : PyVal → PyVal
  | .vNone => .vNone
  | .vTime s => .vInt s
  | v => v

/-- Modelled from the spec: `_utils.datetime_to_seconds`, applied
elementwise on a datetime column — a datetime becomes the integer count
of seconds since the epoch; a missing marker stays missing; other values
pass through. -/
def datetime_to_seconds_val : PyVal → PyVal
  | .vNone => .vNone
  | .vDatetime s => .vInt s
  | .vDate d => .vInt (d * 86400)
  | v => v

/-- Modelled from the spec: `_utils.date_to_seconds` on a whole Series. -/
def date_to_seconds (data : Series) : Series :=
  { data with values := data.values.map date_to_seconds_val }

/-- Modelled from the spec: `_utils.datetime_to_seconds` on a whole Series. -/
def datetime_to_seconds (data : Series) : Series :=
  { data with values := data.values.map datetime_to_seconds_val }

/-- `thrift_cast(data, mapd_type)`: cast time-like columns to integer
seconds.  The Python function has no branch for other types, so it falls
off the end and returns `None`: this is modelled by `Option.none`. -/
def thrift_cast (data : Series) (mapd_type : MapdType) : Option Series :=
  match mapd_type with
  | .TIMESTAMP => some (datetime_to_seconds data)
  | .TIME => some { data with values := data.values.map time_to_seconds_val }
  | .DATE => some (date_to_seconds data)
  | _ => none

/-- Modelled from the spec: `_utils.mapd_to_na`, the process-wide lookup
from wire type to null sentinel — the reserved minimum representable
value for each integer width (the 8-byte minimum for the time-like types,
which are stored as 8-byte integers), a NaN for the float widths, and a
placeholder string for text. -/
def mapd_to_na : MapdType → PyVal
  | .BOOL => .vInt (-128)
  | .TINYINT => .vInt (-128)
  | .SMALLINT => .vInt (-32768)
  | .INT => .vInt (-2147483648)
  | .BIGINT => .vInt (-9223372036854775808)
  | .DATE => .vInt (-9223372036854775808)
  | .TIME => .vInt (-9223372036854775808)
  | .TIMESTAMP => .vInt (-9223372036854775808)
  | .FLOAT => .vNaN
  | .DOUBLE => .vNaN
  | .STR => .vStr "NA"
  | .VARCHAR => .vStr "NA"

/-- The three typed buffers of the `TColumnData` union. -/
inductive Slot where
  | int_col
  | real_col
  | str_col
  deriving DecidableEq

/-- Modelled from the spec: `_utils.mapd_to_slot`, the process-wide
lookup from wire type to the `TColumnData` buffer it occupies. -/
def mapd_to_slot : MapdType → Slot
  | .BOOL => .int_col
  | .TINYINT => .int_col
  | .SMALLINT => .int_col
  | .INT => .int_col
  | .BIGINT => .int_col
  | .DATE => .int_col
  | .TIME => .int_col
  | .TIMESTAMP => .int_col
  | .FLOAT => .real_col
  | .DOUBLE => .real_col
  | .STR => .str_col
  | .VARCHAR => .str_col

/-- `mapd_type in ('TIME', 'TIMESTAMP', 'DATE')`. -/
def isTimeType : MapdType → Bool
  | .TIME => true
  | .TIMESTAMP => true
  | .DATE => true
  | _ => false

/-- `mapd_type not in ('FLOAT', 'DOUBLE', 'VARCHAR', 'STR')` — negated:
the wire types whose buffer is not cast to int64 after fillna. -/
def isNoInt64Cast : MapdType → Bool
  | .FLOAT => true
  | .DOUBLE => true
  | .VARCHAR => true
  | .STR => true
  | _ => false

/-- `data.hasnans`. -/
def Series.hasnans (s : Series) : Bool :=
  s.values.any isMissing

/-- `data.isnull().values`: the boolean null-mask of a Series. -/
def isnull_values (s : Series) : List Bool :=
  s.values.map isMissing

/-- `data.fillna(na)`: replace every missing value by the sentinel. -/
def fillna (s : Series) (na : PyVal) : Series :=
  { s with values := s.values.map (fun v => if isMissing v then na else v) }

/-- Reduce an integer into the signed 8-byte range, as numpy's
`astype('int64')` does. -/
def int64wrap (n : Int) : Int :=
  (n + 2 ^ 63).emod (2 ^ 64) - 2 ^ 63

/-- Elementwise effect of `astype('int64')` on the modelled values:
integers are wrapped into the signed 8-byte range. -/
def toInt64Val : PyVal → PyVal
  | .vInt n => .vInt (int64wrap n)
  | v => v

/-- `data.astype('int64')` on a whole Series. -/
def astype_int64 (s : Series) : Series :=
  { s with values := s.values.map toInt64Val }

/-- Lines 100-110 of the source, per column: the time-like cast (when the
wire type is time-like), then — only when the column has missing values —
the null-sentinel fill, then the int64 cast (unless the wire type is in
the no-cast set). -/
def encode_values (data : Series) (mapd_type : MapdType) (has_nulls : Bool) : Series :=
  let data := if isTimeType mapd_type then (thrift_cast data mapd_type).getD data else data
  if has_nulls then
    let filled := fillna data (mapd_to_na mapd_type)
    if isNoInt64Cast mapd_type then filled else astype_int64 filled
  else data

/-- A `TColumn`: one slot of the `TColumnData` union populated with the
value buffer, plus the null-mask. -/
structure TColumn where
  data_slot : Slot
  data : List PyVal
  nulls : List Bool
  deriving DecidableEq

/-- The value the Python variable `nulls` holds after one iteration of
the `build_input_columnar` loop.  The source assigns `nulls` only under
`if has_nulls` and `elif all_nulls is None`, so when a column has no
missing values and `all_nulls` is already set, `nulls` silently keeps
its previous value `nulls_prev`. -/
def next_nulls (n : Nat) (data : Series) (all_nulls : Option (List Bool))
    (nulls_prev : List Bool) : List Bool :=
  if data.hasnans then isnull_values data
  else
    match all_nulls with
    | none => List.replicate n false
    | some _ => nulls_prev

/-- The value the Python variable `all_nulls` holds after one iteration
of the `build_input_columnar` loop: it is built at the first column with
no missing values and never changes afterwards. -/
def next_all_nulls (n : Nat) (data : Series) (all_nulls : Option (List Bool)) :
    Option (List Bool) :=
  if data.hasnans then all_nulls
  else
    match all_nulls with
    | none => some (List.replicate n false)
    | some a => some a

/-- The loop body of `build_input_columnar` over the remaining columns.
`n` is `len(df)`; `all_nulls` is the shared all-false mask once built;
`nulls_prev` is the value the Python variable `nulls` holds from the
previous iteration. -/
def encode_cols (n : Nat) :
    List (String × Series) → Option (List Bool) → List Bool →
    Except PyError (List TColumn)
  | [], _, _ => .ok []
  | (_, data) :: rest, all_nulls, nulls_prev =>
    match get_mapd_dtype data with
    | .error e => .error e
    | .ok mapd_type =>
      let nulls := next_nulls n data all_nulls nulls_prev
      let out := encode_values data mapd_type data.hasnans
      match encode_cols n rest (next_all_nulls n data all_nulls) nulls with
      | .error e => .error e
      | .ok cols =>
        .ok ({ data_slot := mapd_to_slot mapd_type, data := out.values,
               nulls := nulls } :: cols)

/-- A pandas DataFrame: its index (kept as a Series; a positional
RangeIndex in the common case) and its named columns in order. -/
structure DataFrame where
  index : Series
  cols : List (String × Series)
  deriving DecidableEq

/-- `len(df)`: the row count, the length of the index. -/
def DataFrame.nrows (df : DataFrame) : Nat :=
  df.index.values.length

/-- `df.reset_index()`: materialize the index as a leading column named
"index"; the row count is unchanged. -/
def reset_index (df : DataFrame) : DataFrame :=
  { df with cols := ("index", df.index) :: df.cols }

/-- `build_input_columnar(df, preserve_index)`. -/
def build_input_columnar (df : DataFrame) (preserve_index : Bool) :
    Except PyError (List TColumn) :=
  let df := if preserve_index then reset_index df else df
  encode_cols df.nrows df.cols none []

/-- A `TColumnType` schema entry: column name and wire type (the
`TTypeInfo` wrapper around `TDatumType` carries no further data here). -/
structure TColumnType where
  name : String
  ty : MapdType
  deriving DecidableEq

/-- The argument of `build_row_desc`: either a genuine pandas DataFrame
or some other object (described by the name of its type). -/
inductive TableLike where
  | dataFrame (df : DataFrame)
  | other (tyname : String)
  deriving DecidableEq

/-- The per-column loop of `build_row_desc`: resolve each column's wire
type in order; the first resolver error aborts with no partial output. -/
def row_desc_cols : List (String × Series) → Except PyError (List TColumnType)
  | [] => .ok []
  | (name, s) :: rest =>
    match get_mapd_dtype s with
    | .error e => .error e
    | .ok t =>
      match row_desc_cols rest with
      | .error e => .error e
      | .ok ds => .ok (⟨name, t⟩ :: ds)

/-- `build_row_desc(data, preserve_index)`.  The module itself imports
`pandas.api.types`, so pandas is present whenever the function is
reachable; a non-DataFrame argument raises TypeError before any column
is touched. -/
def build_row_desc (data : TableLike) (preserve_index : Bool) :
    Except PyError (List TColumnType) :=
  match data with
  | .other tyname =>
    .error (.typeError ("Create table is not supported for type " ++ tyname ++
      ". Use a pandas DataFrame, or perform the create separately"))
  | .dataFrame df =>
    let df := if preserve_index then reset_index df else df
    row_desc_cols df.cols

/-- The class of the error of a `build_row_desc` result, if any. -/
def resultErrKind (r : Except PyError (List TColumnType)) : Option ErrKind :=
  match r with
  | .error e => some e.kind
  | .ok _ => none

/-! ## Theorems -/

/-- Unfolding of `get_mapd_type_from_known` on an integer dtype. -/
lemma known_int_unfold (i : Nat) :
    get_mapd_type_from_known ⟨.kInt, i⟩ =
      (if i ≤ 1 then .ok .TINYINT
       else if i = 2 then .ok .SMALLINT
       else if i = 4 then .ok .INT
       else .ok .BIGINT) := rfl

/-- Unfolding of `get_mapd_type_from_known` on a float dtype. -/
lemma known_float_unfold (i : Nat) :
    get_mapd_type_from_known ⟨.kFloat, i⟩ =
      (if i ≤ 4 then .ok .FLOAT else .ok .DOUBLE) := rfl

/-- Claim C2: for every column whose declared element type is unambiguous,
`get_mapd_type_from_known` maps boolean to BOOL; integer of width ≤ 1 byte
to TINYINT, width 2 to SMALLINT, width 4 to INT, width > 4 to BIGINT;
float of width ≤ 4 to FLOAT, width > 4 to DOUBLE; datetime-like to
TIMESTAMP; and fails with a TypeError on any other declared dtype. -/
theorem resolver_known_dtype_mapping (d : Dtype) :
    (d.kind = .kBool → get_mapd_type_from_known d = .ok .BOOL)
  ∧ (d.kind = .kInt → d.itemsize ≤ 1 → get_mapd_type_from_known d = .ok .TINYINT)
  ∧ (d.kind = .kInt → d.itemsize = 2 → get_mapd_type_from_known d = .ok .SMALLINT)
  ∧ (d.kind = .kInt → d.itemsize = 4 → get_mapd_type_from_known d = .ok .INT)
  ∧ (d.kind = .kInt → 4 < d.itemsize → get_mapd_type_from_known d = .ok .BIGINT)
  ∧ (d.kind = .kFloat → d.itemsize ≤ 4 → get_mapd_type_from_known d = .ok .FLOAT)
  ∧ (d.kind = .kFloat → 4 < d.itemsize → get_mapd_type_from_known d = .ok .DOUBLE)
  ∧ (d.kind = .kDatetime64 → get_mapd_type_from_known d = .ok .TIMESTAMP)
  ∧ (d.kind = .kOther →
      get_mapd_type_from_known d = .error (.typeError "Unhandled type")) := by
  obtain ⟨k, i⟩ := d
  refine ⟨?_, ?_, ?_, ?_, ?_, ?_, ?_, ?_, ?_⟩ <;> intro hk
  · subst hk; rfl
  · intro hi; subst hk; rw [known_int_unfold, if_pos hi]
  · intro hi; subst hk; subst hi; rfl
  · intro hi; subst hk; subst hi; rfl
  · intro hi; subst hk
    replace hi : 4 < i := hi
    rw [known_int_unfold, if_neg (by omega), if_neg (by omega), if_neg (by omega)]
  · intro hi; subst hk; rw [known_float_unfold, if_pos hi]
  · intro hi; subst hk
    replace hi : 4 < i := hi
    rw [known_float_unfold, if_neg (by omega)]
  · subst hk; rfl
  · subst hk; rfl

/-- Witness for C2: the mapping evaluated at concrete dtypes, one per
branch, each obtained by applying `resolver_known_dtype_mapping`. -/
theorem resolver_known_dtype_mapping_witness :
    get_mapd_type_from_known ⟨.kBool, 1⟩ = .ok .BOOL
  ∧ get_mapd_type_from_known ⟨.kInt, 1⟩ = .ok .TINYINT
  ∧ get_mapd_type_from_known ⟨.kInt, 2⟩ = .ok .SMALLINT
  ∧ get_mapd_type_from_known ⟨.kInt, 4⟩ = .ok .INT
  ∧ get_mapd_type_from_known ⟨.kInt, 8⟩ = .ok .BIGINT
  ∧ get_mapd_type_from_known ⟨.kFloat, 4⟩ = .ok .FLOAT
  ∧ get_mapd_type_from_known ⟨.kFloat, 8⟩ = .ok .DOUBLE
  ∧ get_mapd_type_from_known ⟨.kDatetime64, 8⟩ = .ok .TIMESTAMP
  ∧ get_mapd_type_from_known ⟨.kOther, 8⟩ = .error (.typeError "Unhandled type") :=
  ⟨(resolver_known_dtype_mapping ⟨.kBool, 1⟩).1 rfl,
   (resolver_known_dtype_mapping ⟨.kInt, 1⟩).2.1 rfl (by decide),
   (resolver_known_dtype_mapping ⟨.kInt, 2⟩).2.2.1 rfl rfl,
   (resolver_known_dtype_mapping ⟨.kInt, 4⟩).2.2.2.1 rfl rfl,
   (resolver_known_dtype_mapping ⟨.kInt, 8⟩).2.2.2.2.1 rfl (by decide),
   (resolver_known_dtype_mapping ⟨.kFloat, 4⟩).2.2.2.2.2.1 rfl (by decide),
   (resolver_known_dtype_mapping ⟨.kFloat, 8⟩).2.2.2.2.2.2.1 rfl (by decide),
   (resolver_known_dtype_mapping ⟨.kDatetime64, 8⟩).2.2.2.2.2.2.2.1 rfl,
   (resolver_known_dtype_mapping ⟨.kOther, 8⟩).2.2.2.2.2.2.2.2 rfl⟩

/-- Unfolding of `get_mapd_type_from_object` when the first non-missing
value is known: the result is the class dispatch on that value alone. -/
lemma object_unfold (t : Series) (v : PyVal)
    (ht : (dropna t).values.head? = some v) :
    get_mapd_type_from_object t =
      (if isStrInst v then .ok .STR
       else if isDateInst v then .ok .DATE
       else if isTimeInst v then .ok .TIME
       else if isIntInst v then .ok .INT
       else .error (.typeError "Unhandled type")) := by
  unfold get_mapd_type_from_object
  rw [ht]

/-- Claim C3: for a generic/object column with at least one non-missing
value, `get_mapd_type_from_object` is determined solely by the first
non-missing value — a string gives STR, a date-only value gives DATE, a
time-only value gives TIME, a plain integer gives INT, anything outside
those classes raises TypeError — and any column with the same first
non-missing value resolves identically, so later elements never affect
the result. -/
theorem resolver_object_first_value (s s2 : Series) (v : PyVal)
    (h : (dropna s).values.head? = some v) :
    (∀ str, v = .vStr str → get_mapd_type_from_object s = .ok .STR)
  ∧ (∀ d, v = .vDate d → get_mapd_type_from_object s = .ok .DATE)
  ∧ (∀ x, v = .vTime x → get_mapd_type_from_object s = .ok .TIME)
  ∧ (∀ n, v = .vInt n → get_mapd_type_from_object s = .ok .INT)
  ∧ ((∃ q, v = .vFloat q) ∨ v = .vNaN ∨ v = .vOther →
      get_mapd_type_from_object s = .error (.typeError "Unhandled type"))
  ∧ ((dropna s2).values.head? = some v →
      get_mapd_type_from_object s2 = get_mapd_type_from_object s) := by
  refine ⟨?_, ?_, ?_, ?_, ?_, ?_⟩
  · rintro str rfl; rw [object_unfold s _ h]; rfl
  · rintro d rfl; rw [object_unfold s _ h]; rfl
  · rintro x rfl; rw [object_unfold s _ h]; rfl
  · rintro n rfl; rw [object_unfold s _ h]; rfl
  · rintro (⟨q, rfl⟩ | rfl | rfl) <;> (rw [object_unfold s _ h]; rfl)
  · intro h2; rw [object_unfold s2 _ h2, object_unfold s _ h]

/-- Witness for C3: a column starting (after dropping missing values)
with a string resolves to STR, and a second column with the same first
non-missing value but different later elements resolves identically. -/
theorem resolver_object_first_value_witness :
    (dropna ⟨⟨.kObject, 8⟩, [.vNone, .vStr "a", .vInt 5]⟩).values.head? = some (.vStr "a")
  ∧ get_mapd_type_from_object ⟨⟨.kObject, 8⟩, [.vNone, .vStr "a", .vInt 5]⟩ = .ok .STR
  ∧ get_mapd_type_from_object ⟨⟨.kObject, 8⟩, [.vStr "a", .vTime 3]⟩ =
      get_mapd_type_from_object ⟨⟨.kObject, 8⟩, [.vNone, .vStr "a", .vInt 5]⟩ :=
  ⟨by decide,
   (resolver_object_first_value ⟨⟨.kObject, 8⟩, [.vNone, .vStr "a", .vInt 5]⟩
      ⟨⟨.kObject, 8⟩, [.vStr "a", .vTime 3]⟩ (.vStr "a") (by decide)).1 "a" rfl,
   (resolver_object_first_value ⟨⟨.kObject, 8⟩, [.vNone, .vStr "a", .vInt 5]⟩
      ⟨⟨.kObject, 8⟩, [.vStr "a", .vTime 3]⟩ (.vStr "a") (by decide)).2.2.2.2.2
      (by decide)⟩

/-- Claim C10: a generic/object column whose first non-missing value is a
full datetime (`datetime.datetime`, a subclass of `datetime.date`)
resolves to DATE and never to TIMESTAMP, because the date-instance check
precedes the time-instance check and the object path has no datetime
branch. -/
theorem resolver_object_datetime_gives_date (s : Series) (x : Int)
    (h : (dropna s).values.head? = some (.vDatetime x)) :
    get_mapd_type_from_object s = .ok .DATE
  ∧ get_mapd_type_from_object s ≠ .ok .TIMESTAMP := by
  have hd : get_mapd_type_from_object s = .ok .DATE := by
    rw [object_unfold s _ h]; rfl
  exact ⟨hd, by rw [hd]; decide⟩

/-- Witness for C10: a column whose first non-missing value is a
datetime resolves to DATE. -/
theorem resolver_object_datetime_gives_date_witness :
    get_mapd_type_from_object ⟨⟨.kObject, 8⟩, [.vNone, .vDatetime 100]⟩ = .ok .DATE
  ∧ get_mapd_type_from_object ⟨⟨.kObject, 8⟩, [.vNone, .vDatetime 100]⟩ ≠ .ok .TIMESTAMP :=
  resolver_object_datetime_gives_date ⟨⟨.kObject, 8⟩, [.vNone, .vDatetime 100]⟩ 100
    (by decide)

/-- Unfolding of the `build_input_columnar` loop on a non-empty column
list. -/
lemma encode_cols_cons (n : Nat) (name : String) (data : Series)
    (rest : List (String × Series)) (all_nulls : Option (List Bool))
    (nulls_prev : List Bool) :
    encode_cols n ((name, data) :: rest) all_nulls nulls_prev =
      (match get_mapd_dtype data with
       | .error e => .error e
       | .ok mapd_type =>
         match encode_cols n rest (next_all_nulls n data all_nulls)
             (next_nulls n data all_nulls nulls_prev) with
         | .error e => .error e
         | .ok cols =>
           .ok ({ data_slot := mapd_to_slot mapd_type,
                  data := (encode_values data mapd_type data.hasnans).values,
                  nulls := next_nulls n data all_nulls nulls_prev } :: cols)) := rfl

/-- Unfolding of the `build_row_desc` loop on a non-empty column list. -/
lemma row_desc_cols_cons (name : String) (s : Series)
    (rest : List (String × Series)) :
    row_desc_cols ((name, s) :: rest) =
      (match get_mapd_dtype s with
       | .error e => .error e
       | .ok t =>
         match row_desc_cols rest with
         | .error e => .error e
         | .ok ds => .ok (⟨name, t⟩ :: ds)) := rfl

/-- Claim C4: a generic/object column whose values are all missing makes
the resolver fail with the IndexError "Not any valid values to infer the
type", and that exact error propagates unchanged through `get_mapd_dtype`,
the encoder `build_input_columnar` and the describer `build_row_desc`,
whatever columns follow. -/
theorem all_missing_object_column_fails (idx s : Series) (name : String)
    (rest : List (String × Series))
    (hk : s.dtype.kind = .kObject)
    (hall : ∀ v ∈ s.values, isMissing v = true) :
    get_mapd_type_from_object s
      = .error (.indexError "Not any valid values to infer the type")
  ∧ get_mapd_dtype s
      = .error (.indexError "Not any valid values to infer the type")
  ∧ build_input_columnar ⟨idx, (name, s) :: rest⟩ false
      = .error (.indexError "Not any valid values to infer the type")
  ∧ build_row_desc (.dataFrame ⟨idx, (name, s) :: rest⟩) false
      = .error (.indexError "Not any valid values to infer the type") := by
  have hfil : (dropna s).values = [] := by
    simp only [dropna]
    rw [List.filter_eq_nil_iff]
    intro v hv
    simp [hall v hv]
  have h1 : get_mapd_type_from_object s
      = .error (.indexError "Not any valid values to infer the type") := by
    unfold get_mapd_type_from_object
    rw [hfil]
    rfl
  have h2 : get_mapd_dtype s
      = .error (.indexError "Not any valid values to infer the type") := by
    unfold get_mapd_dtype
    rw [if_pos hk, h1]
  refine ⟨h1, h2, ?_, ?_⟩
  · show encode_cols _ ((name, s) :: rest) none [] = _
    rw [encode_cols_cons, h2]
  · show row_desc_cols ((name, s) :: rest) = _
    rw [row_desc_cols_cons, h2]

/-- Witness for C4: a two-element all-missing object column, followed by
another column, fails everywhere with the IndexError. -/
theorem all_missing_object_column_fails_witness :
    ((⟨⟨.kObject, 8⟩, [.vNone, .vNone]⟩ : Series).dtype.kind = .kObject
      ∧ ∀ v ∈ (⟨⟨.kObject, 8⟩, [.vNone, .vNone]⟩ : Series).values, isMissing v = true)
  ∧ build_input_columnar
      ⟨⟨⟨.kInt, 8⟩, [.vInt 0, .vInt 1]⟩,
       [("a", ⟨⟨.kObject, 8⟩, [.vNone, .vNone]⟩), ("b", ⟨⟨.kInt, 8⟩, [.vInt 1, .vInt 2]⟩)]⟩
      false
      = .error (.indexError "Not any valid values to infer the type") :=
  ⟨⟨rfl, by decide⟩,
   (all_missing_object_column_fails ⟨⟨.kInt, 8⟩, [.vInt 0, .vInt 1]⟩
      ⟨⟨.kObject, 8⟩, [.vNone, .vNone]⟩ "a"
      [("b", ⟨⟨.kInt, 8⟩, [.vInt 1, .vInt 2]⟩)] rfl (by decide)).2.2.1⟩

/-- The column used to refute and then restate claim C5. -/
def c5_series : Series := ⟨⟨.kInt, 4⟩, [.vInt 3]⟩

/-- Counterexample to claim C5: on a wire type outside
`DATE`/`TIME`/`TIMESTAMP` the Python `thrift_cast` falls off the end of
the if-chain and returns `None` — not the input column unchanged. -/
theorem thrift_cast_non_time_counterexample :
    thrift_cast c5_series .INT = none
  ∧ thrift_cast c5_series .INT ≠ some c5_series := by decide

/-- Claim C5 (amended): for every column and every wire type not in
`DATE`/`TIME`/`TIMESTAMP`, `thrift_cast` returns no column at all
(Python `None`), not the input unchanged; the encoder only ever calls it
for the three time-like wire types. -/
theorem thrift_cast_none_for_non_time (s : Series) (t : MapdType)
    (h1 : t ≠ .DATE) (h2 : t ≠ .TIME) (h3 : t ≠ .TIMESTAMP) :
    thrift_cast s t = none := by
  cases t <;>
    first
    | rfl
    | exact absurd rfl h1
    | exact absurd rfl h2
    | exact absurd rfl h3

/-- Witness for the amended claim C5: `thrift_cast` on an INT column
returns `None`. -/
theorem thrift_cast_none_for_non_time_witness :
    (MapdType.INT ≠ .DATE ∧ MapdType.INT ≠ .TIME ∧ MapdType.INT ≠ .TIMESTAMP)
  ∧ thrift_cast c5_series .INT = none :=
  ⟨⟨by decide, by decide, by decide⟩,
   thrift_cast_none_for_non_time c5_series .INT (by decide) (by decide) (by decide)⟩

/-- The elementwise conversion `thrift_cast` applies for each time-like
wire type (identity otherwise); `thrift_cast` on such a column is the map
of this function over the values. -/
def convert_val (t : MapdType) : PyVal → PyVal :=
  match t with
  | .DATE => date_to_seconds_val
  | .TIME => time_to_seconds_val
  | .TIMESTAMP => datetime_to_seconds_val
  | _ => id

/-- Claim C6: for a column encoded with wire type DATE, TIME or TIMESTAMP
that contains missing values, the encoder normalizes first and fills the
null sentinel afterwards: every missing position of the output buffer
holds the integer sentinel (which the trailing int64 cast leaves
untouched) and never a converted sentinel, while every non-missing
position holds the normalized integer-seconds value. -/
theorem normalize_before_sentinel (s : Series) (t : MapdType)
    (ht : isTimeType t = true) :
    (encode_values s t true).values
      = s.values.map (fun v =>
          if isMissing v then toInt64Val (mapd_to_na t)
          else toInt64Val (convert_val t v))
  ∧ toInt64Val (mapd_to_na t) = mapd_to_na t := by
  have hcases : t = .DATE ∨ t = .TIME ∨ t = .TIMESTAMP := by
    cases t <;> simp_all [isTimeType]
  rcases hcases with rfl | rfl | rfl
  · refine ⟨?_, by decide⟩
    have h1 : encode_values s .DATE true
        = astype_int64 (fillna (date_to_seconds s) (mapd_to_na .DATE)) := rfl
    rw [h1]
    simp only [astype_int64, fillna, date_to_seconds, List.map_map]
    congr 1
    funext v
    cases v <;> rfl
  · refine ⟨?_, by decide⟩
    have h1 : encode_values s .TIME true
        = astype_int64 (fillna ⟨s.dtype, s.values.map time_to_seconds_val⟩
            (mapd_to_na .TIME)) := rfl
    rw [h1]
    simp only [astype_int64, fillna, List.map_map]
    congr 1
    funext v
    cases v <;> rfl
  · refine ⟨?_, by decide⟩
    have h1 : encode_values s .TIMESTAMP true
        = astype_int64 (fillna (datetime_to_seconds s) (mapd_to_na .TIMESTAMP)) := rfl
    rw [h1]
    simp only [astype_int64, fillna, datetime_to_seconds, List.map_map]
    congr 1
    funext v
    cases v <;> rfl

/-- The column used to witness claim C6. -/
def c6_series : Series := ⟨⟨.kObject, 8⟩, [.vNone, .vDate 1]⟩

/-- Witness for C6: a DATE column with one missing value and the date
1970-01-02 encodes to the integer sentinel at the missing position and
86400 seconds at the other. -/
theorem normalize_before_sentinel_witness :
    isTimeType .DATE = true
  ∧ ((encode_values c6_series .DATE true).values
      = c6_series.values.map (fun v =>
          if isMissing v then toInt64Val (mapd_to_na .DATE)
          else toInt64Val (convert_val .DATE v))
      ∧ toInt64Val (mapd_to_na .DATE) = mapd_to_na .DATE)
  ∧ (encode_values c6_series .DATE true).values
      = [.vInt (-9223372036854775808), .vInt 86400] :=
  ⟨rfl, normalize_before_sentinel c6_series .DATE rfl, by decide⟩

/-- The values of `int64wrap` lie in the signed 8-byte range. -/
lemma int64wrap_bounds (m : Int) :
    -(2 ^ 63) ≤ int64wrap m ∧ int64wrap m < 2 ^ 63 := by
  unfold int64wrap
  have hpos : (0 : Int) < 2 ^ 64 := by positivity
  have h1 : 0 ≤ (m + 2 ^ 63).emod (2 ^ 64) :=
    Int.emod_nonneg _ (by positivity)
  have h2 : (m + 2 ^ 63).emod (2 ^ 64) < 2 ^ 64 :=
    Int.emod_lt_of_pos _ hpos
  omega

/-- Claim C7: for a column with missing values whose wire type is in the
integer family (not in the encoder's FLOAT/DOUBLE/VARCHAR/STR no-cast
set), the encoder first substitutes the null sentinel and then coerces
the whole buffer to 8-byte signed integer storage: the output buffer is
exactly the int64 cast of the sentinel-substituted buffer, and every
integer in it lies in the signed 8-byte range. -/
theorem int_family_coerced_to_int64 (s : Series) (t : MapdType)
    (ht : isNoInt64Cast t = false) :
    (encode_values s t true).values
      = ((if isTimeType t then (thrift_cast s t).getD s else s).values.map
          (fun v => if isMissing v then mapd_to_na t else v)).map toInt64Val
  ∧ ∀ v ∈ (encode_values s t true).values, ∀ n : Int, v = .vInt n →
      -(2 ^ 63) ≤ n ∧ n < 2 ^ 63 := by
  have h1 : encode_values s t true
      = astype_int64 (fillna (if isTimeType t then (thrift_cast s t).getD s else s)
          (mapd_to_na t)) := by
    unfold encode_values
    simp [ht]
  constructor
  · rw [h1]; rfl
  · intro v hv n hvn
    rw [h1] at hv
    simp only [astype_int64] at hv
    obtain ⟨u, hu, rfl⟩ := List.mem_map.mp hv
    cases u <;> simp only [toInt64Val, PyVal.vInt.injEq] at hvn <;> try exact absurd hvn (by simp)
    case vInt m =>
      subst hvn
      exact int64wrap_bounds m

/-- Witness for C7: a SMALLINT column with a missing value has its buffer
sentinel-filled and cast to int64. -/
theorem int_family_coerced_to_int64_witness :
    isNoInt64Cast .SMALLINT = false
  ∧ ((encode_values ⟨⟨.kInt, 2⟩, [.vNone, .vInt 5]⟩ .SMALLINT true).values
      = ((if isTimeType .SMALLINT
            then (thrift_cast ⟨⟨.kInt, 2⟩, [.vNone, .vInt 5]⟩ .SMALLINT).getD
                   ⟨⟨.kInt, 2⟩, [.vNone, .vInt 5]⟩
            else ⟨⟨.kInt, 2⟩, [.vNone, .vInt 5]⟩).values.map
          (fun v => if isMissing v then mapd_to_na .SMALLINT else v)).map toInt64Val
      ∧ ∀ v ∈ (encode_values ⟨⟨.kInt, 2⟩, [.vNone, .vInt 5]⟩ .SMALLINT true).values,
          ∀ n : Int, v = .vInt n → -(2 ^ 63) ≤ n ∧ n < 2 ^ 63) :=
  ⟨rfl, int_family_coerced_to_int64 ⟨⟨.kInt, 2⟩, [.vNone, .vInt 5]⟩ .SMALLINT rfl⟩

/-- Counterexample to claim C8: handing the Schema Describer an object
that is not a DataFrame raises a TypeError, not an ImportError-kind
error. -/
theorem row_desc_non_dataframe_counterexample :
    resultErrKind (build_row_desc (.other "list") false) = some .typeErrorK
  ∧ resultErrKind (build_row_desc (.other "list") false) ≠ some .importErrorK := by
  decide

/-- Claim C8 (amended): for every input that is not a supported
structured-table type, `build_row_desc` fails immediately with a
TypeError — before any column is processed and with no partial output —
whatever the `preserve_index` flag. -/
theorem row_desc_non_dataframe_typeerror (tyname : String) (p : Bool) :
    build_row_desc (.other tyname) p
      = .error (.typeError ("Create table is not supported for type " ++ tyname ++
          ". Use a pandas DataFrame, or perform the create separately")) := by
  cases p <;> rfl

/-- When the `build_input_columnar` loop succeeds it emits exactly one
encoded column per input column. -/
lemma encode_cols_length (n : Nat) :
    ∀ (cols : List (String × Series)) (an : Option (List Bool))
      (pn : List Bool) (out : List TColumn),
      encode_cols n cols an pn = .ok out → out.length = cols.length := by
  intro cols
  induction cols with
  | nil =>
    intro an pn out h
    simp only [encode_cols] at h
    cases h
    rfl
  | cons c rest ih =>
    obtain ⟨name, data⟩ := c
    intro an pn out h
    rw [encode_cols_cons] at h
    split at h
    · cases h
    · split at h
      · cases h
      · cases h
        next heq =>
        simp [ih _ _ _ heq]

/-- When the `build_row_desc` loop succeeds it emits the input columns'
names in input order. -/
lemma row_desc_cols_names :
    ∀ (cols : List (String × Series)) (out : List TColumnType),
      row_desc_cols cols = .ok out →
        out.map TColumnType.name = cols.map Prod.fst := by
  intro cols
  induction cols with
  | nil =>
    intro out h
    simp only [row_desc_cols] at h
    cases h
    rfl
  | cons c rest ih =>
    obtain ⟨name, s⟩ := c
    intro out h
    rw [row_desc_cols_cons] at h
    split at h
    · cases h
    · split at h
      · cases h
      · cases h
        next heq =>
        simp [ih _ heq]

/-- Claim C9: with `preserve_index = true` both the encoder and the
describer run on the table with exactly one extra column — the
materialized index — prepended before all original columns, which keep
their relative order; with `preserve_index = false` they emit exactly
one output entry per original column in input order. -/
theorem preserve_index_prepends_one (df : DataFrame) :
    build_input_columnar df true = build_input_columnar (reset_index df) false
  ∧ (reset_index df).cols = ("index", df.index) :: df.cols
  ∧ (∀ out, build_input_columnar df false = .ok out →
      out.length = df.cols.length)
  ∧ (∀ out, build_input_columnar df true = .ok out →
      out.length = df.cols.length + 1)
  ∧ build_row_desc (.dataFrame df) true
      = build_row_desc (.dataFrame (reset_index df)) false
  ∧ (∀ out, build_row_desc (.dataFrame df) false = .ok out →
      out.map TColumnType.name = df.cols.map Prod.fst)
  ∧ (∀ out, build_row_desc (.dataFrame df) true = .ok out →
      out.map TColumnType.name = "index" :: df.cols.map Prod.fst) := by
  refine ⟨rfl, rfl, ?_, ?_, rfl, ?_, ?_⟩
  · intro out h
    exact encode_cols_length df.nrows df.cols none [] out h
  · intro out h
    have := encode_cols_length (reset_index df).nrows (reset_index df).cols none [] out h
    simpa [reset_index] using this
  · intro out h
    exact row_desc_cols_names df.cols out h
  · intro out h
    have := row_desc_cols_names (reset_index df).cols out h
    simpa [reset_index] using this

/-- The table used to witness claim C9. -/
def c9_df : DataFrame :=
  ⟨⟨⟨.kInt, 8⟩, [.vInt 0]⟩, [("a", ⟨⟨.kInt, 4⟩, [.vInt 7]⟩)]⟩

/-- Witness for C9: describing a one-column table with
`preserve_index = true` yields the index entry followed by the original
column, in order. -/
theorem preserve_index_prepends_one_witness :
    build_row_desc (.dataFrame c9_df) true
      = .ok [⟨"index", .BIGINT⟩, ⟨"a", .INT⟩]
  ∧ [(⟨"index", .BIGINT⟩ : TColumnType), ⟨"a", .INT⟩].map TColumnType.name
      = "index" :: c9_df.cols.map Prod.fst :=
  ⟨by decide,
   (preserve_index_prepends_one c9_df).2.2.2.2.2.2
     [⟨"index", .BIGINT⟩, ⟨"a", .INT⟩] (by decide)⟩

/-- The table that triggers the null-mask reuse bug of claim C1: a
null-free column, then a column with a missing value, then another
null-free column. -/
def c1_df : DataFrame :=
  { index := ⟨⟨.kInt, 8⟩, [.vInt 0, .vInt 1]⟩,
    cols := [("a", ⟨⟨.kInt, 8⟩, [.vInt 1, .vInt 2]⟩),
             ("b", ⟨⟨.kObject, 8⟩, [.vNone, .vStr "x"]⟩),
             ("c", ⟨⟨.kInt, 8⟩, [.vInt 3, .vInt 4]⟩)] }

/-- Claim C1, evaluated at the failing input: in the source the variable
`nulls` is assigned only under `if has_nulls` and `elif all_nulls is
None`, so once the shared all-false mask exists, a null-free column that
follows a nullable column is emitted with the nullable column's mask.
Here column `c` has no missing values, yet its emitted null-mask is
column `b`'s `[true, false]` instead of the all-false mask of length 2
required by the claim. -/
theorem null_mask_reuse_bug :
    build_input_columnar c1_df false =
      .ok [⟨.int_col, [.vInt 1, .vInt 2], [false, false]⟩,
           ⟨.str_col, [.vStr "NA", .vStr "x"], [true, false]⟩,
           ⟨.int_col, [.vInt 3, .vInt 4], [true, false]⟩]
  ∧ (⟨⟨.kInt, 8⟩, [.vInt 3, .vInt 4]⟩ : Series).hasnans = false
  ∧ [true, false] ≠ List.replicate 2 false := by decide
